import Mathlib

/-!
Verification of `src/backend/app.py` (a UDP location ingestor plus a Flask
query API backed by PostgreSQL).

The Python program is shallowly embedded: the database is a list of rows
plus a serial counter, store reachability and statement failure are explicit
booleans (the results of `psycopg2.connect` and `cursor.execute`/`commit`),
and a received datagram is classified by the results of the two library
decoding steps the listener applies to it (`bytes.decode` and `json.loads`).
Points in time are exact rationals measured in seconds since the epoch.
-/

set_option autoImplicit false

namespace WebServerB3

/-- Decoded JSON value, as produced by `json.loads`.  A JSON object is its
field list in source order; Python builds a `dict` from it, so a repeated
key keeps its last occurrence. -/
inductive Json where
  | null
  | bool (b : Bool)
  | num (q : ℚ)
  | str (s : String)
  | arr (elems : List Json)
  | obj (fields : List (String × Json))

/-- Test for JSON `null` (Python `None`). -/
def Json.isNull : Json → Bool
  | .null => true
  | _ => false

/-- Numeric view of a JSON value: the values PostgreSQL accepts for a
`DOUBLE PRECISION` column via psycopg2 parameter adaptation. -/
def Json.asNum : Json → Option ℚ
  | .num q => some q
  | _ => none

/-- Result of the Python expression `v / 1000.0` on a decoded JSON value
`v` (line 91 of `app.py`): numbers divide, Python booleans are integers so
they divide too, and every other type raises `TypeError`. -/
def Json.divideBy1000 : Json → Option ℚ
  | .num q => some (q / 1000)
  | .bool b => some (if b then 1 / 1000 else 0)
  | _ => none

/-- Python `data.get(k)` on the `dict` built from the JSON object's field
list: the value of the last occurrence of `k`, or `None` (modelled as
`Json.null`, which is also what a present `null` value decodes to) when the
key is absent. -/
def dictGet (fields : List (String × Json)) (k : String) : Json :=
  match (fields.reverse).lookup k with
  | some v => v
  | none => Json.null

/-- One row of the `locations` table (`latitude`, `longitude` are
`DOUBLE PRECISION NOT NULL`, `app_timestamp` a point in time, `full_data`
the verbatim decoded payload; `server_timestamp` defaults server-side and
no claim mentions it). -/
structure LocationRow where
  id : Nat
  latitude : ℚ
  longitude : ℚ
  app_timestamp : ℚ
  full_data : Json

/-- The `locations` table: its rows plus the next value of the `SERIAL`
primary-key sequence. -/
structure DB where
  rows : List LocationRow
  nextId : Nat

/-- Well-formedness maintained by `SERIAL`: every existing id is below the
next sequence value. -/
def DB.WF (db : DB) : Prop :=
  ∀ r ∈ db.rows, r.id < db.nextId

/-- Effect of a successful `INSERT INTO locations (latitude, longitude,
app_timestamp, full_data) VALUES (...)`: one appended row carrying the next
serial id. -/
def DB.insertRow (db : DB) (la lo ts : ℚ) (data : Json) : DB :=
  { rows := db.rows ++ [⟨db.nextId, la, lo, ts, data⟩]
    nextId := db.nextId + 1 }

/-- Environment of one `save_location_data` call: whether
`get_db_connection()` yields a connection, and whether the
`execute`/`commit` of the insert statement raises. -/
structure Env where
  reachable : Bool
  execFails : Bool

/-- Which terminal branch of `save_location_data` ran, distinguished by the
message it logs. -/
inductive SaveOutcome where
  | noConnection
  | decodeError
  | missingField
  | saveError
  | saved
deriving DecidableEq

/-- Result of one `save_location_data` call: the database afterwards, the
branch taken, and the connection lifecycle facts (was a connection obtained,
and was it closed by the `finally` block). -/
structure SaveResult where
  db : DB
  outcome : SaveOutcome
  connOpened : Bool
  connClosed : Bool

/-- Embedding of `save_location_data` (app.py lines 74..108).  Its string
argument is represented by the result of `json.loads` on it: `none` when
that raises `JSONDecodeError`.  Control flow follows the source: connection
check first, then parse, then `data.get` on the three fields (raising
`AttributeError` on a non-dict, caught by the generic handler), the
`None`-check, the `/ 1000.0` conversion, and finally the parameterized
insert, whose database-side rejection of non-numeric latitude/longitude and
transient failure both land in the generic `except` with the table
unchanged (no commit was issued).  The `finally` closes the connection on
every path on which one was obtained. -/
def save_location_data (env : Env) (parsed : Option Json) (db : DB) : SaveResult :=
  if env.reachable = false then
    ⟨db, .noConnection, false, false⟩
  else
    match parsed with
    | none => ⟨db, .decodeError, true, true⟩
    | some data =>
      match data with
      | .obj fields =>
        let lat := dictGet fields "lat"
        let lon := dictGet fields "lon"
        let app_time_ms := dictGet fields "time"
        if lat.isNull || lon.isNull || app_time_ms.isNull then
          ⟨db, .missingField, true, true⟩
        else
          match app_time_ms.divideBy1000 with
          | none => ⟨db, .saveError, true, true⟩
          | some app_timestamp =>
            match lat.asNum, lon.asNum with
            | some la, some lo =>
              if env.execFails then ⟨db, .saveError, true, true⟩
              else ⟨db.insertRow la lo app_timestamp data, .saved, true, true⟩
            | _, _ => ⟨db, .saveError, true, true⟩
      | _ => ⟨db, .saveError, true, true⟩

/-- A received datagram, classified by the two decoding steps applied to
it: empty (skipped by `if data:`), bytes on which `.decode('utf-8')` raises
`UnicodeDecodeError`, or UTF-8 text together with the result of
`json.loads` on it. -/
inductive Datagram where
  | empty
  | badUtf8
  | text (parsed : Option Json)

/-- Result of running the listener loop over a finite prefix of incoming
datagrams: the database afterwards, the `save_location_data` outcomes in
order, and whether the listener function returned through its outer
`except` handler (ending the loop). -/
structure ListenResult where
  db : DB
  outcomes : List SaveOutcome
  crashed : Bool

/-- Embedding of the receive loop of `udp_listener` (app.py lines
110..121) on a finite list of arriving datagrams.  Empty data is skipped;
a `UnicodeDecodeError` from `data.decode('utf-8')` is raised inside the
`while` but outside any inner handler, so it propagates to the function's
outer `except`, which logs and returns: the loop ends and later datagrams
are never received.  Decoded text is handed to `save_location_data`, which
never raises, and the loop continues. -/
def udp_listener (env : Env) (ds : List Datagram) (db : DB) : ListenResult :=
  match ds with
  | [] => ⟨db, [], false⟩
  | d :: rest =>
    match d with
    | .empty => udp_listener env rest db
    | .badUtf8 => ⟨db, [], true⟩
    | .text parsed =>
      let r := save_location_data env parsed db
      let k := udp_listener env rest r.db
      ⟨k.db, r.outcome :: k.outcomes, k.crashed⟩

/-- An HTTP response: status code and JSON object body. -/
structure HttpResponse where
  status : Nat
  body : List (String × Json)

/-- Value of a key in a response body. -/
def HttpResponse.bodyGet (resp : HttpResponse) (k : String) : Option Json :=
  resp.body.lookup k

/-- Step of the maximal-id scan: keep whichever of the accumulator and the
next row has the larger `id`. -/
def maxById (acc : Option LocationRow) (r : LocationRow) : Option LocationRow :=
  match acc with
  | none => some r
  | some m => if m.id < r.id then some r else some m

/-- Row selected by `SELECT ... FROM locations ORDER BY id DESC LIMIT 1`:
the row with maximal `id`, or `none` on an empty table. -/
def latestRow (rows : List LocationRow) : Option LocationRow :=
  rows.foldl maxById none

/-- Embedding of `get_latest_location` (app.py lines 155..185).  A failed
connection yields 500 with an `error` body; a raised query (modelled by
`queryFails`) yields 500 with an `error` body; an empty result yields 404
with a `message` body; otherwise 200 with latitude, longitude and the
stored `app_timestamp` (its `isoformat()` string denotes the same point in
time, which is what the body field carries here). -/
def get_latest_location (reachable queryFails : Bool) (db : DB) : HttpResponse :=
  if reachable = false then
    ⟨500, [("error", Json.str "No se pudo conectar a la base de datos")]⟩
  else if queryFails then
    ⟨500, [("error", Json.str "Error al consultar la base de datos")]⟩
  else
    match latestRow db.rows with
    | some r =>
      ⟨200, [("latitude", Json.num r.latitude),
             ("longitude", Json.num r.longitude),
             ("timestamp", Json.num r.app_timestamp)]⟩
    | none =>
      ⟨404, [("message", Json.str "Esperando la primera transmisión de datos...")]⟩

set_option linter.unusedVariables false in
/-- Embedding of `health_check` (app.py lines 128..135).  The handler
takes the current wall-clock (for `datetime.now().isoformat()`, carried as
a point in time) and the store's reachability; the source never consults
the store, so the response does not depend on `reachable`. -/
def health_check (now : ℚ) (reachable : Bool) : HttpResponse :=
  ⟨200, [("status", Json.str "OK"),
         ("message", Json.str "Pantera API funcionando correctamente"),
         ("timestamp", Json.num now)]⟩

/-- Two points in time (seconds since the epoch) fall in the same calendar
second. -/
def sameSecond (a b : ℚ) : Prop := ⌊a⌋ = ⌊b⌋

/-! ### Helper lemmas -/

/-- A row produced by the maximal-id scan comes from the scanned list or
from the initial accumulator. -/
theorem mem_of_foldl_maxById (rows : List LocationRow) (acc : Option LocationRow)
    (m : LocationRow) (h : rows.foldl maxById acc = some m) :
    m ∈ rows ∨ acc = some m := by
  induction rows generalizing acc with
  | nil => exact Or.inr h
  | cons r rs ih =>
    rcases ih (maxById acc r) h with hm | hacc
    · exact Or.inl (List.mem_cons_of_mem _ hm)
    · cases acc with
      | none =>
        simp only [maxById, Option.some.injEq] at hacc
        exact Or.inl (hacc ▸ List.mem_cons_self r rs)
      | some a =>
        by_cases hlt : a.id < r.id
        · simp only [maxById, hlt, if_true, Option.some.injEq] at hacc
          exact Or.inl (hacc ▸ List.mem_cons_self r rs)
        · simp only [maxById, hlt, if_false] at hacc
          exact Or.inr hacc

/-- Appending a row whose id exceeds every existing id makes it the row
selected by `ORDER BY id DESC LIMIT 1`. -/
theorem latestRow_append (rows : List LocationRow) (x : LocationRow)
    (h : ∀ r ∈ rows, r.id < x.id) : latestRow (rows ++ [x]) = some x := by
  unfold latestRow
  rw [List.foldl_append]
  simp only [List.foldl]
  cases hm : List.foldl maxById none rows with
  | none => rfl
  | some m =>
    rcases mem_of_foldl_maxById rows none m hm with hmem | habs
    · simp only [maxById, h m hmem, if_true]
    · cases habs

/-- Key-value lookup fails when no pair in the list carries the key. -/
theorem lookup_eq_none_of_forall (l : List (String × Json)) (k : String)
    (h : ∀ p ∈ l, ¬ (p.1 = k)) : l.lookup k = none := by
  induction l with
  | nil => rfl
  | cons p ps ih =>
    have hk : (k == p.1) = false :=
      beq_eq_false_iff_ne.mpr fun e => h p (List.mem_cons_self p ps) e.symm
    simp only [List.lookup, hk]
    exact ih fun q hq => h q (List.mem_cons_of_mem p hq)

/-- Dropping every pair with key `k` makes the dict lookup of `k` come up
`None`, i.e. `Json.null` in this embedding. -/
theorem dictGet_filter_ne (fields : List (String × Json)) (k : String) :
    dictGet (fields.filter (fun p => p.1 != k)) k = Json.null := by
  unfold dictGet
  rw [lookup_eq_none_of_forall]
  intro p hp
  rw [List.mem_reverse] at hp
  have hne := (List.mem_filter.mp hp).2
  exact bne_iff_ne.mp hne

/-- Success path of `save_location_data`: with a reachable store, a
non-failing insert statement, and numeric `lat`, `lon`, `time` fields, the
call appends exactly one row whose `app_timestamp` is the payload time
divided by 1000. -/
theorem save_location_data_success (env : Env) (db : DB)
    (fields : List (String × Json)) (la lo t : ℚ)
    (hreach : env.reachable = true) (hexec : env.execFails = false)
    (hlat : dictGet fields "lat" = Json.num la)
    (hlon : dictGet fields "lon" = Json.num lo)
    (htime : dictGet fields "time" = Json.num t) :
    save_location_data env (some (.obj fields)) db =
      ⟨db.insertRow la lo (t / 1000) (Json.obj fields), .saved, true, true⟩ := by
  unfold save_location_data
  simp [hreach, hexec, hlat, hlon, htime, Json.isNull, Json.divideBy1000, Json.asNum]

/-- Exhaustive description of the results `save_location_data` can
produce: one of the four discard branches with storage untouched, or the
saved branch with exactly one appended row. -/
theorem save_location_data_cases (env : Env) (parsed : Option Json) (db : DB) :
    save_location_data env parsed db = ⟨db, .noConnection, false, false⟩ ∨
    save_location_data env parsed db = ⟨db, .decodeError, true, true⟩ ∨
    save_location_data env parsed db = ⟨db, .missingField, true, true⟩ ∨
    save_location_data env parsed db = ⟨db, .saveError, true, true⟩ ∨
    ∃ la lo ts data, save_location_data env parsed db =
      ⟨db.insertRow la lo ts data, .saved, true, true⟩ := by
  cases hr : env.reachable
  · refine Or.inl ?_
    unfold save_location_data
    rw [hr]
    rfl
  · cases parsed with
    | none =>
      refine Or.inr (Or.inl ?_)
      unfold save_location_data
      rw [hr]
      rfl
    | some data =>
      cases data with
      | obj fields =>
        by_cases hb : ((dictGet fields "lat").isNull || (dictGet fields "lon").isNull ||
            (dictGet fields "time").isNull) = true
        · refine Or.inr (Or.inr (Or.inl ?_))
          unfold save_location_data
          simp [hr, hb]
        · cases hd : (dictGet fields "time").divideBy1000 with
          | none =>
            refine Or.inr (Or.inr (Or.inr (Or.inl ?_)))
            unfold save_location_data
            simp [hr, hb, hd]
          | some ts =>
            cases hla : (dictGet fields "lat").asNum with
            | none =>
              refine Or.inr (Or.inr (Or.inr (Or.inl ?_)))
              unfold save_location_data
              simp [hr, hb, hd, hla]
            | some la =>
              cases hlo : (dictGet fields "lon").asNum with
              | none =>
                refine Or.inr (Or.inr (Or.inr (Or.inl ?_)))
                unfold save_location_data
                simp [hr, hb, hd, hla, hlo]
              | some lo =>
                cases he : env.execFails
                · refine Or.inr (Or.inr (Or.inr (Or.inr ⟨la, lo, ts, .obj fields, ?_⟩)))
                  unfold save_location_data
                  simp [hr, hb, hd, hla, hlo, he]
                · refine Or.inr (Or.inr (Or.inr (Or.inl ?_)))
                  unfold save_location_data
                  simp [hr, hb, hd, hla, hlo, he]
      | null =>
        refine Or.inr (Or.inr (Or.inr (Or.inl ?_)))
        unfold save_location_data
        rw [hr]
        rfl
      | bool b =>
        refine Or.inr (Or.inr (Or.inr (Or.inl ?_)))
        unfold save_location_data
        rw [hr]
        rfl
      | num q =>
        refine Or.inr (Or.inr (Or.inr (Or.inl ?_)))
        unfold save_location_data
        rw [hr]
        rfl
      | str s =>
        refine Or.inr (Or.inr (Or.inr (Or.inl ?_)))
        unfold save_location_data
        rw [hr]
        rfl
      | arr elems =>
        refine Or.inr (Or.inr (Or.inr (Or.inl ?_)))
        unfold save_location_data
        rw [hr]
        rfl

/-! ### Claims -/

/-- C4: a decoded JSON payload in which any of the required fields `lat`,
`lon`, `time` is missing (its dict lookup is `None`) is logged and
discarded: `save_location_data` takes the missing-field branch, performs no
insert, and the record count in storage is unchanged. -/
theorem missing_required_field_discards (env : Env) (db : DB)
    (fields : List (String × Json)) (hreach : env.reachable = true)
    (hmiss : dictGet fields "lat" = Json.null ∨ dictGet fields "lon" = Json.null ∨
      dictGet fields "time" = Json.null) :
    save_location_data env (some (.obj fields)) db = ⟨db, .missingField, true, true⟩ ∧
    (save_location_data env (some (.obj fields)) db).db.rows.length = db.rows.length := by
  have h1 : save_location_data env (some (.obj fields)) db = ⟨db, .missingField, true, true⟩ := by
    unfold save_location_data
    rcases hmiss with h | h | h <;> simp [hreach, h, Json.isNull]
  exact ⟨h1, by rw [h1]⟩

/-- Witness for C4 at a concrete payload lacking `lat`. -/
theorem missing_required_field_discards_witness :
    save_location_data ⟨true, false⟩
        (some (.obj [("lon", Json.num 1), ("time", Json.num 2)])) ⟨[], 1⟩ =
      ⟨⟨[], 1⟩, .missingField, true, true⟩ ∧
    (save_location_data ⟨true, false⟩
        (some (.obj [("lon", Json.num 1), ("time", Json.num 2)])) ⟨[], 1⟩).db.rows.length =
      ([] : List LocationRow).length :=
  missing_required_field_discards ⟨true, false⟩ ⟨[], 1⟩
    [("lon", Json.num 1), ("time", Json.num 2)] rfl (Or.inl rfl)

/-- C5: on an empty store `latest` returns no row, and the latest-location
endpoint answers HTTP 404 with a `message` body and no `latitude` key. -/
theorem empty_store_latest_404 (db : DB) (h : db.rows = []) :
    latestRow db.rows = none ∧
    (get_latest_location true false db).status = 404 ∧
    (get_latest_location true false db).bodyGet "message" =
      some (Json.str "Esperando la primera transmisión de datos...") ∧
    (get_latest_location true false db).bodyGet "latitude" = none := by
  have hl : latestRow db.rows = none := by rw [h]; rfl
  have hresp : get_latest_location true false db =
      ⟨404, [("message", Json.str "Esperando la primera transmisión de datos...")]⟩ := by
    unfold get_latest_location
    rw [hl]
    rfl
  exact ⟨hl, by rw [hresp], by rw [hresp]; rfl, by rw [hresp]; rfl⟩

/-- Witness for C5 at the empty database. -/
theorem empty_store_latest_404_witness :
    latestRow (DB.mk [] 1).rows = none ∧
    (get_latest_location true false ⟨[], 1⟩).status = 404 ∧
    (get_latest_location true false ⟨[], 1⟩).bodyGet "message" =
      some (Json.str "Esperando la primera transmisión de datos...") ∧
    (get_latest_location true false ⟨[], 1⟩).bodyGet "latitude" = none :=
  empty_store_latest_404 ⟨[], 1⟩ rfl

/-- C6: with the store unreachable the latest-location endpoint answers
HTTP 500 with an `error` body and none of the record fields. -/
theorem store_unreachable_latest_500 (queryFails : Bool) (db : DB) :
    (get_latest_location false queryFails db).status = 500 ∧
    (get_latest_location false queryFails db).bodyGet "error" =
      some (Json.str "No se pudo conectar a la base de datos") ∧
    (get_latest_location false queryFails db).bodyGet "latitude" = none ∧
    (get_latest_location false queryFails db).bodyGet "longitude" = none ∧
    (get_latest_location false queryFails db).bodyGet "timestamp" = none :=
  ⟨rfl, rfl, rfl, rfl, rfl⟩

/-- C9: when the store is unreachable, `save_location_data` returns before
any decode or validation: the outcome is the no-connection branch (never
the decode-error or missing-field one) and storage is unchanged, for every
payload including a malformed one. -/
theorem unreachable_store_drops_payload (env : Env) (parsed : Option Json) (db : DB)
    (h : env.reachable = false) :
    save_location_data env parsed db = ⟨db, .noConnection, false, false⟩ ∧
    (save_location_data env parsed db).outcome ≠ .decodeError ∧
    (save_location_data env parsed db).outcome ≠ .missingField := by
  have h1 : save_location_data env parsed db = ⟨db, .noConnection, false, false⟩ := by
    unfold save_location_data
    rw [h]
    rfl
  exact ⟨h1, by rw [h1]; simp, by rw [h1]; simp⟩

/-- Witness for C9 at a malformed (non-JSON) payload. -/
theorem unreachable_store_drops_payload_witness :
    save_location_data ⟨false, false⟩ none ⟨[], 1⟩ = ⟨⟨[], 1⟩, .noConnection, false, false⟩ ∧
    (save_location_data ⟨false, false⟩ none ⟨[], 1⟩).outcome ≠ .decodeError ∧
    (save_location_data ⟨false, false⟩ none ⟨[], 1⟩).outcome ≠ .missingField :=
  unreachable_store_drops_payload ⟨false, false⟩ none ⟨[], 1⟩ rfl

/-- C7: for every valid payload the stored `app_timestamp` is the
sender-supplied epoch-millisecond value divided by 1000, with the
fractional milliseconds preserved exactly: multiplying the stored value
back by 1000 recovers the payload time. -/
theorem app_timestamp_divides_by_1000 (env : Env) (db : DB)
    (fields : List (String × Json)) (la lo t : ℚ)
    (hreach : env.reachable = true) (hexec : env.execFails = false)
    (hlat : dictGet fields "lat" = Json.num la)
    (hlon : dictGet fields "lon" = Json.num lo)
    (htime : dictGet fields "time" = Json.num t) :
    save_location_data env (some (.obj fields)) db =
      ⟨db.insertRow la lo (t / 1000) (Json.obj fields), .saved, true, true⟩ ∧
    (t / 1000) * 1000 = t :=
  ⟨save_location_data_success env db fields la lo t hreach hexec hlat hlon htime,
   div_mul_cancel₀ t (by norm_num)⟩

/-- Witness for C7 at a payload whose time has a nonzero millisecond
fraction. -/
theorem app_timestamp_divides_by_1000_witness :
    save_location_data ⟨true, false⟩
        (some (.obj [("lat", Json.num 40), ("lon", Json.num (-3)),
          ("time", Json.num 1700000000123)])) ⟨[], 1⟩ =
      ⟨DB.insertRow ⟨[], 1⟩ 40 (-3) (1700000000123 / 1000)
        (Json.obj [("lat", Json.num 40), ("lon", Json.num (-3)),
          ("time", Json.num 1700000000123)]), .saved, true, true⟩ ∧
    ((1700000000123 : ℚ) / 1000) * 1000 = 1700000000123 :=
  app_timestamp_divides_by_1000 ⟨true, false⟩ ⟨[], 1⟩
    [("lat", Json.num 40), ("lon", Json.num (-3)), ("time", Json.num 1700000000123)]
    40 (-3) 1700000000123 rfl rfl rfl rfl rfl

/-- C8: `save_location_data` is all-or-nothing: either exactly one row is
appended (the saved branch) or storage is left completely unchanged, and
whenever a connection was obtained it is closed on the way out. -/
theorem insert_row_or_nothing (env : Env) (parsed : Option Json) (db : DB) :
    ((∃ row, (save_location_data env parsed db).db.rows = db.rows ++ [row] ∧
        (save_location_data env parsed db).outcome = .saved) ∨
      ((save_location_data env parsed db).db = db ∧
        (save_location_data env parsed db).outcome ≠ .saved)) ∧
    ((save_location_data env parsed db).connOpened = true →
      (save_location_data env parsed db).connClosed = true) := by
  rcases save_location_data_cases env parsed db with h | h | h | h | ⟨la, lo, ts, data, h⟩ <;>
    rw [h] <;>
    first
      | exact ⟨Or.inl ⟨_, rfl, rfl⟩, fun hh => hh⟩
      | exact ⟨Or.inr ⟨rfl, by simp⟩, fun hh => hh⟩

/-- C10: a required field bound to JSON `null` behaves exactly as an absent
field: `save_location_data` returns the same result as on the payload with
that key removed, and storage is unchanged. -/
theorem null_field_equals_absent (env : Env) (db : DB)
    (fields : List (String × Json)) (k : String)
    (hk : k = "lat" ∨ k = "lon" ∨ k = "time")
    (hnull : (fields.reverse).lookup k = some Json.null) :
    save_location_data env (some (.obj fields)) db =
      save_location_data env (some (.obj (fields.filter (fun p => p.1 != k)))) db ∧
    (save_location_data env (some (.obj fields)) db).db = db := by
  have hget : dictGet fields k = Json.null := by unfold dictGet; rw [hnull]
  have hboth : ∀ gs : List (String × Json), dictGet gs k = Json.null →
      save_location_data env (some (.obj gs)) db =
        if env.reachable = false then ⟨db, .noConnection, false, false⟩
        else ⟨db, .missingField, true, true⟩ := by
    intro gs hg
    unfold save_location_data
    cases hr : env.reachable
    · simp
    · rcases hk with rfl | rfl | rfl <;> simp [hg, Json.isNull]
  constructor
  · rw [hboth fields hget, hboth _ (dictGet_filter_ne fields k)]
  · rw [hboth fields hget]
    split <;> rfl

/-- Witness for C10 at a payload whose `lat` is bound to `null`. -/
theorem null_field_equals_absent_witness :
    save_location_data ⟨true, false⟩
        (some (.obj [("lat", Json.null), ("lon", Json.num 1), ("time", Json.num 2)])) ⟨[], 1⟩ =
      save_location_data ⟨true, false⟩
        (some (.obj ([("lat", Json.null), ("lon", Json.num 1),
          ("time", Json.num 2)].filter (fun p => p.1 != "lat")))) ⟨[], 1⟩ ∧
    (save_location_data ⟨true, false⟩
        (some (.obj [("lat", Json.null), ("lon", Json.num 1), ("time", Json.num 2)])) ⟨[], 1⟩).db =
      ⟨[], 1⟩ :=
  null_field_equals_absent ⟨true, false⟩ ⟨[], 1⟩
    [("lat", Json.null), ("lon", Json.num 1), ("time", Json.num 2)] "lat"
    (Or.inl rfl) rfl

/-- C3 counterexample: with the store unreachable the health endpoint still
answers HTTP 200 with status "OK"; it does not answer HTTP 500, refuting
the claim that the response reflects store reachability. -/
theorem health_check_ignores_reachability :
    (health_check 0 false).status = 200 ∧
    (health_check 0 false).bodyGet "status" = some (Json.str "OK") ∧
    (health_check 0 false).status ≠ 500 :=
  ⟨rfl, rfl, by decide⟩

/-- C3 (amended): the health endpoint never consults the store: for every
wall-clock and every reachability it answers HTTP 200 with status "OK",
and the response is identical whether the store is reachable or not. -/
theorem health_check_always_ok (now : ℚ) (reachable : Bool) :
    health_check now reachable =
      ⟨200, [("status", Json.str "OK"),
             ("message", Json.str "Pantera API funcionando correctamente"),
             ("timestamp", Json.num now)]⟩ ∧
    health_check now reachable = health_check now true :=
  ⟨rfl, rfl⟩

/-- C1: inserting a payload with numeric `lat`/`lon` and an integer
epoch-millisecond `time` into a well-formed store and then querying the
latest location returns HTTP 200 with exactly the inserted latitude and
longitude and a timestamp in the same second as the payload's time. -/
theorem insert_then_latest_matches (env : Env) (db : DB)
    (fields : List (String × Json)) (la lo : ℚ) (t : ℤ)
    (hwf : db.WF)
    (hreach : env.reachable = true) (hexec : env.execFails = false)
    (hlat : dictGet fields "lat" = Json.num la)
    (hlon : dictGet fields "lon" = Json.num lo)
    (htime : dictGet fields "time" = Json.num (t : ℚ)) :
    (save_location_data env (some (.obj fields)) db).outcome = .saved ∧
    ∃ ts : ℚ,
      get_latest_location true false (save_location_data env (some (.obj fields)) db).db =
        ⟨200, [("latitude", Json.num la), ("longitude", Json.num lo),
               ("timestamp", Json.num ts)]⟩ ∧
      sameSecond ts ((t : ℚ) / 1000) := by
  have hsave := save_location_data_success env db fields la lo (t : ℚ)
    hreach hexec hlat hlon htime
  rw [hsave]
  refine ⟨rfl, (t : ℚ) / 1000, ?_, rfl⟩
  have hlatest : latestRow (DB.insertRow db la lo ((t : ℚ) / 1000) (Json.obj fields)).rows =
      some ⟨db.nextId, la, lo, (t : ℚ) / 1000, Json.obj fields⟩ :=
    latestRow_append db.rows _ fun r hr => hwf r hr
  unfold get_latest_location
  rw [hlatest]
  rfl

/-- Witness for C1: the scenario payload lat 40, lon -3,
time 1700000000000 inserted into the empty store. -/
theorem insert_then_latest_matches_witness :
    (save_location_data ⟨true, false⟩
        (some (.obj [("lat", Json.num 40), ("lon", Json.num (-3)),
          ("time", Json.num 1700000000000)])) ⟨[], 1⟩).outcome = .saved ∧
    ∃ ts : ℚ,
      get_latest_location true false
          (save_location_data ⟨true, false⟩
            (some (.obj [("lat", Json.num 40), ("lon", Json.num (-3)),
              ("time", Json.num 1700000000000)])) ⟨[], 1⟩).db =
        ⟨200, [("latitude", Json.num 40), ("longitude", Json.num (-3)),
               ("timestamp", Json.num ts)]⟩ ∧
      sameSecond ts (((1700000000000 : ℤ) : ℚ) / 1000) :=
  insert_then_latest_matches ⟨true, false⟩ ⟨[], 1⟩
    [("lat", Json.num 40), ("lon", Json.num (-3)), ("time", Json.num 1700000000000)]
    40 (-3) 1700000000000
    (fun r hr => absurd hr (List.not_mem_nil r)) rfl rfl rfl rfl rfl

/-- C2 counterexample: a datagram whose bytes are not valid UTF-8 ends the
receive loop: the listener returns through its outer handler and a
subsequent valid datagram is never received or saved, so the loop does not
proceed. -/
theorem bad_utf8_stops_listener :
    udp_listener ⟨true, false⟩
        [Datagram.badUtf8,
         Datagram.text (some (.obj [("lat", Json.num 1), ("lon", Json.num 2),
           ("time", Json.num 3000)]))] ⟨[], 1⟩ =
      ⟨⟨[], 1⟩, [], true⟩ ∧
    (udp_listener ⟨true, false⟩
        [Datagram.badUtf8,
         Datagram.text (some (.obj [("lat", Json.num 1), ("lon", Json.num 2),
           ("time", Json.num 3000)]))] ⟨[], 1⟩).crashed = true :=
  ⟨rfl, rfl⟩

/-- C2 (amended): a UTF-8 datagram whose text fails to decode as JSON is
logged and discarded and the receive loop continues: it receives and saves
a following valid datagram, and the listener has not returned through its
outer handler.  (A datagram whose bytes fail to decode as UTF-8 instead
terminates the loop, per the counterexample.) -/
theorem bad_json_keeps_listening (env : Env) (db : DB)
    (fields : List (String × Json)) (la lo t : ℚ)
    (hreach : env.reachable = true) (hexec : env.execFails = false)
    (hlat : dictGet fields "lat" = Json.num la)
    (hlon : dictGet fields "lon" = Json.num lo)
    (htime : dictGet fields "time" = Json.num t) :
    udp_listener env [Datagram.text none, Datagram.text (some (.obj fields))] db =
      ⟨db.insertRow la lo (t / 1000) (Json.obj fields), [.decodeError, .saved], false⟩ := by
  have hbad : save_location_data env none db = ⟨db, .decodeError, true, true⟩ := by
    unfold save_location_data
    rw [hreach]
    rfl
  have hok := save_location_data_success env db fields la lo t hreach hexec hlat hlon htime
  simp [udp_listener, hbad, hok]

/-- Witness for the amended C2 at a concrete bad-JSON datagram followed by
a concrete valid one. -/
theorem bad_json_keeps_listening_witness :
    udp_listener ⟨true, false⟩
        [Datagram.text none,
         Datagram.text (some (.obj [("lat", Json.num 1), ("lon", Json.num 2),
           ("time", Json.num 3000)]))] ⟨[], 1⟩ =
      ⟨DB.insertRow ⟨[], 1⟩ 1 2 (3000 / 1000)
        (Json.obj [("lat", Json.num 1), ("lon", Json.num 2), ("time", Json.num 3000)]),
       [.decodeError, .saved], false⟩ :=
  bad_json_keeps_listening ⟨true, false⟩ ⟨[], 1⟩
    [("lat", Json.num 1), ("lon", Json.num 2), ("time", Json.num 3000)]
    1 2 3000 rfl rfl rfl rfl rfl

end WebServerB3
